import Mathlib

/-!
Verification of the huanqiu-image-generator repository.

This file shallowly embeds the parts of the Go sources that the checked
properties talk about:

* the JSON-RPC/MCP dispatchers of `xiaohongshu-unified-mcp/mcp_server.go`
  and `xiaohongshu-cover-mcp/mcp_server.go` (`handleToolsCall`,
  `handleToolsList`);
* the default-merging of `xhs/mcp_handlers.go`
  (`handleGenerateXiaohongshuCover`) and its publish handler
  (`handlePublishContent`);
* the xiaohongshu client of the orchestrator binary
  (`PostContent`, `PostWithRetry`, `ValidatePostRequest`,
  `CheckLoginStatus`/`TestConnection`);
* the cover-generation client (`TestConnection`);
* the orchestrator state machine (`orchestrator.Run`, `testConnections`);
* the daily scheduler (`getNext8PMBeijing`);
* the configuration loader (`config.Load`, `loadFromEnv`, `setDefaults`,
  `validate`).

Go `map[string]interface{}` values decoded from JSON are modelled by the
inductive `GoVal` below; maps are association lists looked up by first
match (Go map iteration order is irrelevant to every modelled function,
whose results are order-independent).  Machine integers stay within tiny
ranges here, so `Nat`/`Int` model them directly.  Wall-clock fields
(`time.Time` timestamps stored in responses) are omitted; instants handed
to the scheduler are modelled as nanosecond counts.
-/

/-- A dynamic JSON-decoded Go value (`interface\x7b\x7d` produced by
`encoding/json`).  Go decodes every JSON number to `float64`; the float
literals appearing in the sources (`1.0`, `0.8`, `-15`, ...) are carried
here as rationals, and no modelled function performs float arithmetic on
them — they are only stored, compared for map membership by key, or
serialized. -/
inductive GoVal where
  | vnull : GoVal
  | vstr (s : String) : GoVal
  | vint (n : Int) : GoVal
  | vfloat (q : Rat) : GoVal
  | vbool (b : Bool) : GoVal
  | varr (xs : List GoVal) : GoVal
  | vobj (fields : List (String × GoVal)) : GoVal

/-- Association-list lookup, first match wins (Go `m[key]`). -/
def mapLookup : List (String × GoVal) → String → Option GoVal
  | [], _ => none
  | (k, v) :: rest, key => if k = key then some v else mapLookup rest key

/-- Left-biased choice on optional values. -/
def optOr (a b : Option GoVal) : Option GoVal :=
  match a with
  | some v => some v
  | none => b

/-- The static default table of `handleGenerateXiaohongshuCover`
(`xhs/mcp_handlers.go`).  `defaultText` is the Go raw-string literal,
newlines included. -/
def coverDefaultText : String :=
  "\n8 月 3 日入园人数: <span style=\"color: #ff0000; font-weight: bold;\">19999</span><br/>天气晴朗适合游玩\n"

/-- The `defaults` map literal of `handleGenerateXiaohongshuCover`. -/
def coverArgDefaults : List (String × GoVal) :=
  [ ("baseUrl", .vstr "http://localhost:3000")
  , ("selector", .vstr "#exportable")
  , ("image", .vstr "/assets/6.jpg")
  , ("text", .vstr coverDefaultText)
  , ("output_path", .vstr "/tmp/xiaohongshu_cover.png")
  , ("fontFamily", .vstr "Arial")
  , ("fontSize", .vint 48)
  , ("fontWeight", .vstr "bold")
  , ("color", .vstr "#0e0d0c")
  , ("backgroundColor", .vstr "#f4f750")
  , ("textShadow", .vstr "2px 2px 4px #000000")
  , ("border", .vstr "1px solid #000000")
  , ("borderRadius", .vint 32)
  , ("borderWidth", .vint 3)
  , ("borderStyle", .vstr "dashed")
  , ("padding", .vint 20)
  , ("scaleX", .vfloat 1)
  , ("scaleY", .vfloat 1)
  , ("skewX", .vfloat 0)
  , ("skewY", .vfloat 0)
  , ("opacity", .vfloat (4/5))
  , ("overlayColor", .vstr "#443c3c")
  , ("x", .vint 50)
  , ("y", .vint 50) ]

/-- The default-merging loop of `handleGenerateXiaohongshuCover`:
`for key, defaultValue := range defaults \x7b if _, exists := args[key]; !exists
\x7b args[key] = defaultValue \x7d \x7d`.  Inserting a key absent from the
map is modelled by appending the pair. -/
def applyDefaults (defaults args : List (String × GoVal)) : List (String × GoVal) :=
  defaults.foldl
    (fun m kv => if (mapLookup m kv.1).isSome then m else m ++ [kv]) args

/-- The argument map actually used by `handleGenerateXiaohongshuCover`
after default merging. -/
def mergedCoverArgs (args : List (String × GoVal)) : List (String × GoVal) :=
  applyDefaults coverArgDefaults args

/-- One entry of a ToolResult's `content` array (`MCPContent` in both
servers' type files; Go fields `Type`, `Text`). -/
structure MCPContent where
  mtype : String
  text : String

/-- A tool handler's result (`MCPToolResult`; Go fields `Content`,
`IsError` with tag `isError,omitempty`). -/
structure MCPToolResult where
  content : List MCPContent
  isError : Bool

/-- Outcome of one dispatched `tools/call` HTTP request: a JSON-RPC reply
carrying a ToolResult, a JSON-RPC error object, or a runtime panic raised
by an unchecked Go type assertion inside the handler. -/
inductive DispatchOutcome where
  | toolReply (id : GoVal) (r : MCPToolResult)
  | rpcError (id : GoVal) (code : Int) (message : String) (data : String)
  | panicked

/-- The tool names of the unified server's `tools/call` switch
(`xiaohongshu-unified-mcp/mcp_server.go`). -/
def unifiedToolNames : List String :=
  [ "generate_xiaohongshu_cover", "check_login_status", "publish_content"
  , "list_feeds", "search_feeds" ]

/-- `handleToolsCall` of `xiaohongshu-unified-mcp/mcp_server.go`.  After
the `params` object check it builds
`MCPToolCall\x7bName: params["name"].(string),
Arguments: params["arguments"].(map[string]interface\x7b\x7d)\x7d` with
two UNCHECKED type assertions (Name evaluated first), then switches on the
tool name.  `runTool` stands for the five concrete tool handlers. -/
def unifiedHandleToolsCall
    (runTool : String → List (String × GoVal) → MCPToolResult)
    (id params : GoVal) : DispatchOutcome :=
  match params with
  | .vobj fs =>
    match mapLookup fs "name" with
    | some (.vstr name) =>
      match mapLookup fs "arguments" with
      | some (.vobj args) =>
        if name ∈ unifiedToolNames then .toolReply id (runTool name args)
        else .rpcError id (-32601) "Method not found" ("Unknown tool: " ++ name)
      | _ => .panicked
    | _ => .panicked
  | _ => .rpcError id (-32602) "Invalid params" "Params must be an object"

/-- `handleToolsCall` of `xiaohongshu-cover-mcp/mcp_server.go`: checked
assertions on `params`, `name`; a missing or non-object `arguments` is
replaced by an empty map.  `runCover` stands for
`handleGenerateXiaohongshuCover`. -/
def coverHandleToolsCall
    (runCover : List (String × GoVal) → MCPToolResult)
    (id params : GoVal) : DispatchOutcome :=
  match params with
  | .vobj fs =>
    match mapLookup fs "name" with
    | some (.vstr name) =>
      let args := match mapLookup fs "arguments" with
        | some (.vobj a) => a
        | _ => []
      if name = "generate_xiaohongshu_cover" then .toolReply id (runCover args)
      else .rpcError id (-32601) "Method not found" ("Unknown tool: " ++ name)
    | _ => .rpcError id (-32602) "Invalid params" "Missing tool name"
  | _ => .rpcError id (-32602) "Invalid params" "Expected object"

/-- The JSON-RPC error code of an outcome, if the outcome is an error
reply. -/
def outcomeErrCode : DispatchOutcome → Option Int
  | .rpcError _ code _ _ => some code
  | _ => none

/-- Whether the dispatch crashed with a panic. -/
def outcomePanicked : DispatchOutcome → Bool
  | .panicked => true
  | _ => false

/-- The static descriptor array built by `handleToolsList` of
`xiaohongshu-unified-mcp/mcp_server.go`. -/
def unifiedToolsArray : GoVal :=
  .varr
    [ .vobj
        [ ("name", .vstr "generate_xiaohongshu_cover")
        , ("description", .vstr "Generate Xiaohongshu cover image with customizable parameters")
        , ("inputSchema", .vobj
            [ ("type", .vstr "object")
            , ("properties", .vobj
                [ ("baseUrl", .vobj [("type", .vstr "string"), ("description", .vstr "Base URL for the cover generator")])
                , ("selector", .vobj [("type", .vstr "string"), ("description", .vstr "CSS selector for screenshot")])
                , ("image", .vobj [("type", .vstr "string"), ("description", .vstr "Background image path")])
                , ("text", .vobj [("type", .vstr "string"), ("description", .vstr "Text content to display")])
                , ("output_path", .vobj [("type", .vstr "string"), ("description", .vstr "Output file path")])
                , ("fontFamily", .vobj [("type", .vstr "string"), ("description", .vstr "Font family")])
                , ("fontSize", .vobj [("type", .vstr "number"), ("description", .vstr "Font size")])
                , ("color", .vobj [("type", .vstr "string"), ("description", .vstr "Text color")])
                , ("backgroundColor", .vobj [("type", .vstr "string"), ("description", .vstr "Background color")]) ]) ]) ]
    , .vobj
        [ ("name", .vstr "check_login_status")
        , ("description", .vstr "Check Xiaohongshu login status")
        , ("inputSchema", .vobj
            [ ("type", .vstr "object"), ("properties", .vobj []) ]) ]
    , .vobj
        [ ("name", .vstr "publish_content")
        , ("description", .vstr "Publish content to Xiaohongshu")
        , ("inputSchema", .vobj
            [ ("type", .vstr "object")
            , ("properties", .vobj
                [ ("title", .vobj [("type", .vstr "string"), ("description", .vstr "Content title")])
                , ("content", .vobj [("type", .vstr "string"), ("description", .vstr "Content body")])
                , ("images", .vobj [("type", .vstr "array"), ("items", .vobj [("type", .vstr "string")]), ("description", .vstr "Image paths")]) ])
            , ("required", .varr [.vstr "title", .vstr "content", .vstr "images"]) ]) ]
    , .vobj
        [ ("name", .vstr "list_feeds")
        , ("description", .vstr "List Xiaohongshu feeds")
        , ("inputSchema", .vobj
            [ ("type", .vstr "object"), ("properties", .vobj []) ]) ]
    , .vobj
        [ ("name", .vstr "search_feeds")
        , ("description", .vstr "Search Xiaohongshu feeds by keyword")
        , ("inputSchema", .vobj
            [ ("type", .vstr "object")
            , ("properties", .vobj
                [ ("keyword", .vobj [("type", .vstr "string"), ("description", .vstr "Search keyword")])
                , ("limit", .vobj [("type", .vstr "number"), ("description", .vstr "Maximum number of results")]) ])
            , ("required", .varr [.vstr "keyword"]) ]) ] ]

/-- The static result object built by `handleToolsList` of
`xiaohongshu-cover-mcp/mcp_server.go` (a single descriptor). -/
def coverToolsResult : GoVal :=
  .vobj
    [ ("tools", .varr
        [ .vobj
            [ ("name", .vstr "generate_xiaohongshu_cover")
            , ("description", .vstr "Generate a Xiaohongshu cover image with customizable text and styling")
            , ("inputSchema", .vobj
                [ ("type", .vstr "object")
                , ("properties", .vobj
                    [ ("baseUrl", .vobj [("type", .vstr "string"), ("description", .vstr "The URL to generate cover from (default: http://localhost:3000)")])
                    , ("selector", .vobj [("type", .vstr "string"), ("description", .vstr "CSS selector of element to screenshot (default: #exportable)")])
                    , ("image", .vobj [("type", .vstr "string"), ("description", .vstr "Path to the background image (default: /assets/sample1.jpg)")])
                    , ("text", .vobj [("type", .vstr "string"), ("description", .vstr "Text content to overlay (supports HTML, default: 'Sample Text')")])
                    , ("output_path", .vobj [("type", .vstr "string"), ("description", .vstr "Output file path for the generated image (default: /tmp/xiaohongshu_cover.png)")])
                    , ("fontFamily", .vobj [("type", .vstr "string"), ("description", .vstr "Font family name (default: 'Arial')")])
                    , ("fontSize", .vobj [("type", .vstr "integer"), ("description", .vstr "Font size in pixels (default: 48)")])
                    , ("fontWeight", .vobj [("type", .vstr "string"), ("description", .vstr "Font weight (default: 'bold')")])
                    , ("color", .vobj [("type", .vstr "string"), ("description", .vstr "Text color hex code (default: '#ffffff')")])
                    , ("backgroundColor", .vobj [("type", .vstr "string"), ("description", .vstr "Background color hex code (default: '#000000')")])
                    , ("textShadow", .vobj [("type", .vstr "string"), ("description", .vstr "CSS text shadow (default: '2px 2px 4px #000000')")])
                    , ("border", .vobj [("type", .vstr "string"), ("description", .vstr "CSS border (default: '1px solid #000000')")])
                    , ("borderRadius", .vobj [("type", .vstr "integer"), ("description", .vstr "Border radius in pixels (default: 0)")])
                    , ("borderWidth", .vobj [("type", .vstr "integer"), ("description", .vstr "Border width in pixels (default: 1)")])
                    , ("borderStyle", .vobj [("type", .vstr "string"), ("description", .vstr "Border style (default: 'solid')")])
                    , ("padding", .vobj [("type", .vstr "integer"), ("description", .vstr "Padding in pixels (default: 20)")])
                    , ("scaleX", .vobj [("type", .vstr "number"), ("description", .vstr "Horizontal scale (default: 1.0)")])
                    , ("scaleY", .vobj [("type", .vstr "number"), ("description", .vstr "Vertical scale (default: 1.0)")])
                    , ("skewX", .vobj [("type", .vstr "number"), ("description", .vstr "Horizontal skew in degrees (default: 0)")])
                    , ("skewY", .vobj [("type", .vstr "number"), ("description", .vstr "Vertical skew in degrees (default: 0)")])
                    , ("opacity", .vobj [("type", .vstr "number"), ("description", .vstr "Overlay opacity (0.0 to 1.0, default: 0.8)")])
                    , ("overlayColor", .vobj [("type", .vstr "string"), ("description", .vstr "Overlay color hex code (default: '#000000')")])
                    , ("x", .vobj [("type", .vstr "integer"), ("description", .vstr "Horizontal position in pixels (default: 50)")])
                    , ("y", .vobj [("type", .vstr "integer"), ("description", .vstr "Vertical position in pixels (default: 50)")]) ])
                , ("required", .varr []) ]) ] ]) ]

/-- A successful JSON-RPC reply body (`JSONRPCResponse` with `Result`
set): `\x7bjsonrpc: "2.0", result, id\x7d`. -/
structure RpcReply where
  result : GoVal
  id : GoVal

/-- `handleToolsList` of the unified server: builds the static array and
replies; the request's params are never read. -/
def unifiedHandleToolsList (id _params : GoVal) : RpcReply :=
  { result := .vobj [("tools", unifiedToolsArray)], id := id }

/-- `handleToolsList` of the cover server: replies with the static
single-descriptor object; the request's params are never read. -/
def coverHandleToolsList (id _params : GoVal) : RpcReply :=
  { result := coverToolsResult, id := id }

/-- The `name` fields of the descriptors inside a `tools/list` result
object. -/
def toolNamesOf (result : GoVal) : List String :=
  match result with
  | .vobj fs =>
    match mapLookup fs "tools" with
    | some (.varr xs) =>
      xs.filterMap fun x =>
        match x with
        | .vobj d =>
          match mapLookup d "name" with
          | some (.vstr s) => some s
          | _ => none
        | _ => none
    | _ => []
  | _ => []

/-- `xhs.PostRequest` (client of the orchestrator binary): title, content
and image list of a post. -/
structure PostRequest where
  title : String
  content : String
  images : List String

/-- `xhs.PostResponse` as decoded by `encoding/json` (tags `post_id`,
`url`, `status`, `message`, `error,omitempty`); the `posted_at`
`time.Time` field is wall-clock bookkeeping and is omitted. -/
structure PostResponse where
  postID : String
  url : String
  status : String
  message : String
  error : String

/-- The zero value of `PostResponse`. -/
def zeroPostResponse : PostResponse :=
  { postID := "", url := "", status := "", message := "", error := "" }

/-- Go `len` of a string: its UTF-8 byte count. -/
def goLen (s : String) : Nat := s.utf8ByteSize

/-- `Client.ValidatePostRequest` (xhs client): the five checks in source
order; `none` means valid.  Go `len` counts UTF-8 bytes. -/
def validatePostRequest (req : PostRequest) : Option String :=
  if req.title = "" then some "title is required"
  else if req.content = "" then some "content is required"
  else if req.images = [] then some "at least one image is required"
  else if goLen req.title > 100 then some "title too long (max 100 characters)"
  else if goLen req.content > 1000 then some "content too long (max 1000 characters)"
  else none

/-- The wrapped error text of `PostWithRetry` on final failure:
`"failed to post content after %d retries: %w"`. -/
def retryFailMsg (maxRetries : Nat) (lastErr : String) : String :=
  "failed to post content after " ++ toString maxRetries ++ " retries: " ++ lastErr

/-- Loop body of `Client.PostWithRetry`, recursing on the remaining
iteration count (`fuel`); the current index is `maxRetries - fuel`.
Returns the loop's result, the number of `PostContent` calls made, and
the list of sleep durations (in seconds) performed between attempts:
after a failed attempt `i` with `i < maxRetries-1`, the code sleeps
`(i+1) * 10` seconds. -/
def retryLoop (attempt : Nat → Except String PostResponse) (maxRetries : Nat) :
    Nat → String → Except String PostResponse × Nat × List Nat
  | 0, lastErr => (.error (retryFailMsg maxRetries lastErr), 0, [])
  | fuel + 1, _ =>
    let i := maxRetries - (fuel + 1)
    match attempt i with
    | .ok r => (.ok r, 1, [])
    | .error e =>
      let rest := retryLoop attempt maxRetries fuel e
      (rest.1, rest.2.1 + 1,
        (if i < maxRetries - 1 then [(i + 1) * 10] else []) ++ rest.2.2)

/-- `Client.PostWithRetry(req, maxRetries)`: the `attempt` oracle stands
for the i-th call to `PostContent` (whose outcome depends on the remote
server). -/
def postWithRetry (attempt : Nat → Except String PostResponse)
    (maxRetries : Nat) : Except String PostResponse × Nat × List Nat :=
  retryLoop attempt maxRetries maxRetries ""

/-- `PublishResponse` of the unified server
(`xhs/xiaohongshu_service.go`). -/
structure PublishResponse where
  title : String
  content : String
  images : Int
  status : String
  postID : String

/-- Go `fmt.Sprintf("%+v", result)` where `result` is a
`*PublishResponse`. -/
def formatPublishResponse (r : PublishResponse) : String :=
  "&\x7bTitle:" ++ r.title ++ " Content:" ++ r.content ++
    " Images:" ++ toString r.images ++ " Status:" ++ r.status ++
    " PostID:" ++ r.postID ++ "\x7d"

/-- `handlePublishContent` of `xhs/mcp_handlers.go`, after argument
parsing: the downstream `xiaohongshuService.PublishContent` outcome is
the oracle.  On failure it returns a ToolResult with `isError: true` and
a free-text message; in neither branch is any `error` field produced —
`MCPToolResult` has no such field. -/
def handlePublishContentResult (outcome : Except String PublishResponse) :
    MCPToolResult :=
  match outcome with
  | .error e =>
    { content := [{ mtype := "text", text := "发布失败: " ++ e }], isError := true }
  | .ok r =>
    { content := [{ mtype := "text", text := "内容发布成功: " ++ formatPublishResponse r }]
    , isError := false }

/-- JSON serialization of an `MCPToolResult` (Go tags `content`,
`isError,omitempty`): this is the `result` member of the JSON-RPC reply
the unified server sends for a `tools/call`. -/
def encodeToolResult (r : MCPToolResult) : GoVal :=
  .vobj
    ([("content", .varr (r.content.map fun c =>
        .vobj [("type", .vstr c.mtype), ("text", .vstr c.text)]))] ++
      (if r.isError then [("isError", .vbool true)] else []))

/-- `json.Unmarshal` of a string-typed struct field: a missing key leaves
the zero value, a string is taken verbatim, any other JSON type is an
unmarshal type error. -/
def getStrField (fs : List (String × GoVal)) (k : String) : Except String String :=
  match mapLookup fs k with
  | none => .ok ""
  | some (.vstr s) => .ok s
  | some _ => .error ("json: cannot unmarshal field " ++ k)

/-- `json.Unmarshal(resultBytes, &result)` in `Client.PostContent`:
decoding the JSON-RPC `result` member into a `PostResponse`.  Unknown keys
(such as `content` and `isError`) are ignored. -/
def decodePostResponse (j : GoVal) : Except String PostResponse :=
  match j with
  | .vnull => .ok zeroPostResponse
  | .vobj fs => do
    let pid ← getStrField fs "post_id"
    let u ← getStrField fs "url"
    let st ← getStrField fs "status"
    let msg ← getStrField fs "message"
    let er ← getStrField fs "error"
    .ok { postID := pid, url := u, status := st, message := msg, error := er }
  | _ => .error "json: cannot unmarshal value into PostResponse"

/-- `MCPError` of the xhs client. -/
structure MCPErrorVal where
  code : Int
  message : String

/-- The decoded body of a JSON-RPC reply as seen by the xhs client
(`MCPResponse`): `Result` is a dynamic value, `Error` is optional. -/
structure MCPResponseVal where
  result : GoVal
  error : Option MCPErrorVal

/-- `Client.PostContent` from the point where the HTTP reply body is in
hand: `callMCP` rejects an `Error` member; otherwise the `result` is
re-marshalled and unmarshalled into a `PostResponse`, and a non-empty
decoded `Error` string aborts with `"posting error: ..."`. -/
def postContentDecode (resp : MCPResponseVal) : Except String PostResponse :=
  match resp.error with
  | some e => .error ("MCP error " ++ toString e.code ++ ": " ++ e.message)
  | none =>
    match decodePostResponse resp.result with
    | .error e => .error ("failed to unmarshal post response: " ++ e)
    | .ok r =>
      if r.error ≠ "" then .error ("posting error: " ++ r.error)
      else .ok r

/-- An outgoing HTTP request as issued by the orchestrator's clients:
method, full URL, and the JSON-RPC body for POSTs. -/
structure HttpReq where
  method : String
  url : String
  body : Option GoVal

/-- `covergen.Client.TestConnection`: a GET of `baseURL + "/health"`. -/
def coverTestConnectionReq (base : String) : HttpReq :=
  { method := "GET", url := base ++ "/health", body := none }

/-- The request issued by `xhs.Client.CheckLoginStatus` (which is also
`xhs.Client.TestConnection`): a `tools/call` of `check_login_status`
POSTed to `baseURL + "/mcp"`; `nowNano` is the `time.Now().UnixNano()`
used for the request id. -/
def xhsCheckLoginReq (base : String) (headless : Bool) (nowNano : Nat) : HttpReq :=
  { method := "POST"
  , url := base ++ "/mcp"
  , body := some (.vobj
      [ ("jsonrpc", .vstr "2.0")
      , ("method", .vstr "tools/call")
      , ("params", .vobj
          [ ("name", .vstr "check_login_status")
          , ("arguments", .vobj [("headless", .vbool headless)]) ])
      , ("id", .vstr ("login_" ++ toString nowNano)) ]) }

/-- The HTTP requests issued by `orchestrator.testConnections` when the
first check succeeds: the cover client's health ping, then the xhs
client's login-status tool call. -/
def testConnectionsRequests (coverBase xhsBase : String)
    (xhsHeadless : Bool) (nowNano : Nat) : List HttpReq :=
  [coverTestConnectionReq coverBase, xhsCheckLoginReq xhsBase xhsHeadless nowNano]

/-- The JSON-RPC `method` member of a request body, if present. -/
def reqRpcMethod (r : HttpReq) : Option String :=
  match r.body with
  | some (.vobj fs) =>
    match mapLookup fs "method" with
    | some (.vstr s) => some s
    | _ => none
  | _ => none

/-- The tool name inside a request body's `params`, if present. -/
def reqToolName (r : HttpReq) : Option String :=
  match r.body with
  | some (.vobj fs) =>
    match mapLookup fs "params" with
    | some (.vobj ps) =>
      match mapLookup ps "name" with
      | some (.vstr s) => some s
      | _ => none
    | _ => none
  | _ => none

/-- Nanoseconds per day (China standard time has no DST, so Beijing local
time advances linearly and `time.Date(..., 20,0,0,0, beijingTZ)` is the
20:00:00 instant of the current local day). -/
def nsPerDay : Nat := 86400 * 1000000000

/-- Nanosecond offset of 20:00:00 within a day. -/
def h8pmNs : Nat := 72000 * 1000000000

/-- `Scheduler.getNext8PMBeijing`: instants are nanosecond counts of
Beijing local time since an epoch midnight.  `target` is today's
20:00:00; `now.After(target)` (strict) pushes it by 24h. -/
def getNext8PMBeijing (now : Nat) : Nat :=
  let target := now / nsPerDay * nsPerDay + h8pmNs
  if target < now then target + nsPerDay else target

/-- `config.Config.WeatherAPI`. -/
structure WeatherAPIConf where
  apiKey : String
  baseURL : String
  city : String

/-- `config.Config.TrafficAPI`. -/
structure TrafficAPIConf where
  apiKey : String
  baseURL : String
  city : String

/-- `config.Config.DeepSeekLLM`. -/
structure DeepSeekLLMConf where
  apiKey : String
  baseURL : String
  model : String

/-- `config.Config.MCP` (cover-generation server). -/
structure MCPConf where
  serverURL : String
  headless : Bool
  baseURL : String
  outDir : String

/-- `config.Config.Xiaohongshu`. -/
structure XiaohongshuConf where
  serverURL : String
  headless : Bool

/-- `config.Config.Weibo`. -/
structure WeiboConf where
  uid : String
  cookies : String
  token : String

/-- `config.Config.Settings`. -/
structure SettingsConf where
  postInterval : String
  logLevel : String

/-- `config.Config`: the whole configuration record. -/
structure AppConfig where
  weatherAPI : WeatherAPIConf
  trafficAPI : TrafficAPIConf
  deepSeekLLM : DeepSeekLLMConf
  mcp : MCPConf
  xiaohongshu : XiaohongshuConf
  weibo : WeiboConf
  settings : SettingsConf

/-- `config.loadFromEnv`: each environment variable overrides its field
when non-empty (`os.Getenv` returns `""` for unset variables, modelled by
`env`). -/
def loadFromEnv (env : String → String) (cfg : AppConfig) : AppConfig :=
  let cfg := if env "WEATHER_API_KEY" ≠ "" then
    { cfg with weatherAPI := { cfg.weatherAPI with apiKey := env "WEATHER_API_KEY" } } else cfg
  let cfg := if env "WEATHER_API_URL" ≠ "" then
    { cfg with weatherAPI := { cfg.weatherAPI with baseURL := env "WEATHER_API_URL" } } else cfg
  let cfg := if env "CITY" ≠ "" then
    { cfg with
      weatherAPI := { cfg.weatherAPI with city := env "CITY" }
      trafficAPI := { cfg.trafficAPI with city := env "CITY" } } else cfg
  let cfg := if env "TRAFFIC_API_KEY" ≠ "" then
    { cfg with trafficAPI := { cfg.trafficAPI with apiKey := env "TRAFFIC_API_KEY" } } else cfg
  let cfg := if env "TRAFFIC_API_URL" ≠ "" then
    { cfg with trafficAPI := { cfg.trafficAPI with baseURL := env "TRAFFIC_API_URL" } } else cfg
  let cfg := if env "DEEPSEEK_API_KEY" ≠ "" then
    { cfg with deepSeekLLM := { cfg.deepSeekLLM with apiKey := env "DEEPSEEK_API_KEY" } } else cfg
  let cfg := if env "DEEPSEEK_API_URL" ≠ "" then
    { cfg with deepSeekLLM := { cfg.deepSeekLLM with baseURL := env "DEEPSEEK_API_URL" } } else cfg
  let cfg := if env "DEEPSEEK_MODEL" ≠ "" then
    { cfg with deepSeekLLM := { cfg.deepSeekLLM with model := env "DEEPSEEK_MODEL" } } else cfg
  let cfg := if env "MCP_SERVER_URL" ≠ "" then
    { cfg with mcp := { cfg.mcp with serverURL := env "MCP_SERVER_URL" } } else cfg
  let cfg := if env "XHS_SERVER_URL" ≠ "" then
    { cfg with xiaohongshu := { cfg.xiaohongshu with serverURL := env "XHS_SERVER_URL" } } else cfg
  let cfg := if env "WEIBO_UID" ≠ "" then
    { cfg with weibo := { cfg.weibo with uid := env "WEIBO_UID" } } else cfg
  let cfg := if env "WEIBO_COOKIES" ≠ "" then
    { cfg with weibo := { cfg.weibo with cookies := env "WEIBO_COOKIES" } } else cfg
  let cfg := if env "WEIBO_TOKEN" ≠ "" then
    { cfg with weibo := { cfg.weibo with token := env "WEIBO_TOKEN" } } else cfg
  let cfg := if env "POST_INTERVAL" ≠ "" then
    { cfg with settings := { cfg.settings with postInterval := env "POST_INTERVAL" } } else cfg
  let cfg := if env "LOG_LEVEL" ≠ "" then
    { cfg with settings := { cfg.settings with logLevel := env "LOG_LEVEL" } } else cfg
  cfg

/-- The default weibo cookie literal of `config.setDefaults`. -/
def defaultWeiboCookies : String :=
  "SUB=_2AkMfzfZxf8NxqwFRmfscymjibox_zA3EieKpkQeqJRMxHRl-yT9kqnIitRB6NE3Ynp3g3XUjfERDfRvDu2Ob-V0AV-Ht; XSRF-TOKEN=JVS9su9p3gsRZyDzgsijAdx5; WBPSESS=gJ7ElPMf_3q2cdj5JUfmvNSXzQofuuhpbfKWU-JmetuhhFVlp1s7T3D6PJClzn45urDFp34oVajUL4N7sYweJyZs74npFsMnIJ9PUcbSjV9Pwg5IdiwWIEUuHTqDSRsJ3pCe78X7Zm38ENkYYoFzAwkxKSCkNQ3Kb-j9COTqz14="

/-- `config.setDefaults`: the Go function assigns each field in place
under an emptiness test, except the two `Headless` fields, which are
assigned `false` UNCONDITIONALLY; the per-field conditional assignments
are written here as one record update (the fields are independent, so the
net effect is identical). -/
def setDefaults (cfg : AppConfig) : AppConfig :=
  { weatherAPI :=
      { apiKey := cfg.weatherAPI.apiKey
      , baseURL := if cfg.weatherAPI.baseURL = "" then
          "https://api.openweathermap.org/data/2.5" else cfg.weatherAPI.baseURL
      , city := if cfg.weatherAPI.city = "" then "Beijing" else cfg.weatherAPI.city }
  , trafficAPI :=
      { apiKey := cfg.trafficAPI.apiKey
      , baseURL := cfg.trafficAPI.baseURL
      , city := if cfg.trafficAPI.city = "" then "Beijing" else cfg.trafficAPI.city }
  , deepSeekLLM :=
      { apiKey := cfg.deepSeekLLM.apiKey
      , baseURL := if cfg.deepSeekLLM.baseURL = "" then
          "https://api.deepseek.com" else cfg.deepSeekLLM.baseURL
      , model := if cfg.deepSeekLLM.model = "" then "deepseek-chat" else cfg.deepSeekLLM.model }
  , mcp :=
      { serverURL := if cfg.mcp.serverURL = "" then
          "http://localhost:18062" else cfg.mcp.serverURL
      , headless := false
      , baseURL := if cfg.mcp.baseURL = "" then
          "http://localhost:3000" else cfg.mcp.baseURL
      , outDir := if cfg.mcp.outDir = "" then "/Users/kx/Desktop" else cfg.mcp.outDir }
  , xiaohongshu :=
      { serverURL := if cfg.xiaohongshu.serverURL = "" then
          "http://localhost:18062" else cfg.xiaohongshu.serverURL
      , headless := false }
  , weibo :=
      { uid := if cfg.weibo.uid = "" then "3937775216" else cfg.weibo.uid
      , cookies := if cfg.weibo.cookies = "" then defaultWeiboCookies else cfg.weibo.cookies
      , token := if cfg.weibo.token = "" then "JVS9su9p3gsRZyDzgsijAdx5" else cfg.weibo.token }
  , settings :=
      { postInterval := if cfg.settings.postInterval = "" then
          "24h" else cfg.settings.postInterval
      , logLevel := if cfg.settings.logLevel = "" then "info" else cfg.settings.logLevel } }

/-- `config.validate`: the two mandatory API keys. -/
def validateConfig (cfg : AppConfig) : Except String Unit :=
  if cfg.weatherAPI.apiKey = "" then .error "weather API key is required"
  else if cfg.deepSeekLLM.apiKey = "" then .error "DeepSeek API key is required"
  else .ok ()

/-- `config.Load`: `fileCfg` is the `Config` value after the
`config.json` phase (the zero value when the file is absent or whatever
`json.Unmarshal` produced — quantifying over all `AppConfig` values
covers every file content), then environment overrides, defaults, and
validation. -/
def loadConfig (fileCfg : AppConfig) (env : String → String) :
    Except String AppConfig :=
  let cfg := loadFromEnv env fileCfg
  let cfg := setDefaults cfg
  match validateConfig cfg with
  | .error e => .error ("configuration validation failed: " ++ e)
  | .ok _ => .ok cfg

/-- Modelled from the spec: the LLM content generator (`internal/llm`,
an external collaborator whose source is not under src/) returns
structured text; `orchestrator.Run` reads its `Title`, its `CoverText`,
and `GetFormattedContent()` (modelled as the `formattedContent` field). -/
structure GeneratedContent where
  title : String
  coverText : String
  formattedContent : String

/-- `covergen.ImageResponse` (cover-generation client); the
`generated_at` `time.Time` field is omitted. -/
structure ImageResponse where
  imageURL : String
  imagePath : String
  imageData : String
  prompt : String
  error : String

/-- One externally visible step of `orchestrator.Run`, in the order the
code performs them. -/
inductive Step where
  | testCoverConnection
  | testXhsConnection
  | fetchWeather
  | fetchLunar
  | fetchTraffic
  | fetchVisitor
  | fetchWeibo
  | generateLLM
  | generateCover
  | validatePost
  | publish
deriving DecidableEq

/-- The outcomes of every external call `orchestrator.Run` can make,
parametric in the fetcher payload types (their contents are only stored
and logged).  `post i` is the outcome of the i-th `PostContent` attempt
inside `PostWithRetry`. -/
structure OrchEnv (W L T V : Type) where
  coverConn : Except String Unit
  xhsConn : Except String Unit
  weather : Except String W
  lunar : Except String L
  traffic : Except String T
  visitor : Except String V
  weibo : Except String String
  llm : Except String GeneratedContent
  cover : Except String ImageResponse
  post : Nat → Except String PostResponse

/-- `orchestrator.WorkflowResult` (nil pointers are `none`; the
`ExecutionTime`/`Timestamp` wall-clock fields are omitted). -/
structure WorkflowResult (W L T V : Type) where
  weatherInfo : Option W
  lunarInfo : Option L
  trafficInfo : Option T
  visitorInfo : Option V
  weiboContent : String
  generatedContent : Option GeneratedContent
  imageResponse : Option ImageResponse
  postResponse : Option PostResponse
  success : Bool
  error : String

/-- The freshly initialised `WorkflowResult` of `orchestrator.Run`. -/
def emptyWorkflowResult (W L T V : Type) : WorkflowResult W L T V :=
  { weatherInfo := none, lunarInfo := none, trafficInfo := none
  , visitorInfo := none, weiboContent := "", generatedContent := none
  , imageResponse := none, postResponse := none, success := false, error := "" }

/-- What one `orchestrator.Run` did: the steps it executed in order, the
workflow record it assembled, and its return value. -/
structure RunOutcome (W L T V : Type) where
  trace : List Step
  result : WorkflowResult W L T V
  outcome : Except String Unit

/-- `orchestrator.Run`: connection tests (abort on failure), the five
fetchers in sequence (failures tolerated: the field stays empty), then
LLM, cover generation, validation and `PostWithRetry(req, 3)` — each of
which aborts the run on failure. -/
def orchestratorRun {W L T V : Type} (env : OrchEnv W L T V) : RunOutcome W L T V :=
  let base := emptyWorkflowResult W L T V
  match env.coverConn with
  | .error e =>
    let msg := "Connection test failed: MCP server connection failed: " ++ e
    { trace := [.testCoverConnection]
    , result := { base with error := msg }, outcome := .error msg }
  | .ok _ =>
  match env.xhsConn with
  | .error e =>
    let msg := "Connection test failed: Xiaohongshu MCP server connection failed: " ++ e
    { trace := [.testCoverConnection, .testXhsConnection]
    , result := { base with error := msg }, outcome := .error msg }
  | .ok _ =>
  let connTrace : List Step := [.testCoverConnection, .testXhsConnection]
  let r1 := { base with weatherInfo := env.weather.toOption }
  let r2 := { r1 with lunarInfo := env.lunar.toOption }
  let r3 := { r2 with trafficInfo := env.traffic.toOption }
  let r4 := { r3 with visitorInfo := env.visitor.toOption }
  let r5 := { r4 with weiboContent :=
    match env.weibo with
    | .ok s => s
    | .error _ => "" }
  let gatherTrace := connTrace ++
    [Step.fetchWeather, Step.fetchLunar, Step.fetchTraffic, Step.fetchVisitor, Step.fetchWeibo]
  match env.llm with
  | .error e =>
    let msg := "Content generation failed: " ++ e
    { trace := gatherTrace ++ [Step.generateLLM]
    , result := { r5 with error := msg }, outcome := .error msg }
  | .ok gen =>
  let r6 := { r5 with generatedContent := some gen }
  match env.cover with
  | .error e =>
    let msg := "Image generation failed: " ++ e
    { trace := gatherTrace ++ [Step.generateLLM, Step.generateCover]
    , result := { r6 with error := msg }, outcome := .error msg }
  | .ok img =>
  let r7 := { r6 with imageResponse := some img }
  let postReq : PostRequest :=
    { title := gen.title, content := gen.formattedContent, images := [img.imageURL] }
  match validatePostRequest postReq with
  | some e =>
    let msg := "Post validation failed: " ++ e
    { trace := gatherTrace ++ [Step.generateLLM, Step.generateCover, Step.validatePost]
    , result := { r7 with error := msg }, outcome := .error msg }
  | none =>
  match (postWithRetry env.post 3).1 with
  | .error e =>
    let msg := "Posting failed: " ++ e
    { trace := gatherTrace ++
        [Step.generateLLM, Step.generateCover, Step.validatePost, Step.publish]
    , result := { r7 with error := msg }, outcome := .error msg }
  | .ok pr =>
    { trace := gatherTrace ++
        [Step.generateLLM, Step.generateCover, Step.validatePost, Step.publish]
    , result := { r7 with postResponse := some pr, success := true }
    , outcome := .ok () }

/-- A tool handler returning an empty successful result; used to
instantiate the dispatcher's handler parameter on concrete inputs. -/
def trivialToolHandler : String → List (String × GoVal) → MCPToolResult :=
  fun _ _ => { content := [], isError := false }

/-- The single-tool variant of `trivialToolHandler`. -/
def trivialCoverHandler : List (String × GoVal) → MCPToolResult :=
  fun _ => { content := [], isError := false }

/-- A 34-character Chinese title: 34 characters, 102 UTF-8 bytes. -/
def longCjkTitle : String :=
  "天天天天天天天天天天天天天天天天天天天天天天天天天天天天天天天天天天"

/-- An environment whose cover-server connection test fails. -/
def envCoverDown : OrchEnv Unit Unit Unit Unit :=
  { coverConn := .error "connection refused", xhsConn := .ok ()
  , weather := .error "w", lunar := .error "l", traffic := .error "t"
  , visitor := .error "v", weibo := .error "b", llm := .error "g"
  , cover := .error "c", post := fun _ => .error "p" }

/-- An environment with working connections and every fetcher, the LLM
included, failing. -/
def envAllFetchersFail : OrchEnv Unit Unit Unit Unit :=
  { coverConn := .ok (), xhsConn := .ok ()
  , weather := .error "w", lunar := .error "l", traffic := .error "t"
  , visitor := .error "v", weibo := .error "b", llm := .error "g"
  , cover := .error "c", post := fun _ => .error "p" }

/-- A file configuration carrying both API keys and `headless: true` in
both sections. -/
def fileCfgHeadlessTrue : AppConfig :=
  { weatherAPI := { apiKey := "wkey", baseURL := "", city := "" }
  , trafficAPI := { apiKey := "", baseURL := "", city := "" }
  , deepSeekLLM := { apiKey := "dkey", baseURL := "", model := "" }
  , mcp := { serverURL := "", headless := true, baseURL := "", outDir := "" }
  , xiaohongshu := { serverURL := "", headless := true }
  , weibo := { uid := "", cookies := "", token := "" }
  , settings := { postInterval := "", logLevel := "" } }

/-- The empty environment (no variable set; `os.Getenv` yields `""`). -/
def emptyEnv : String → String := fun _ => ""

/-- The configuration `config.Load` produces from
`fileCfgHeadlessTrue` under `emptyEnv`. -/
def loadedCfgEx : AppConfig := setDefaults (loadFromEnv emptyEnv fileCfgHeadlessTrue)

theorem mapLookup_append (xs ys : List (String × GoVal)) (k : String) :
    mapLookup (xs ++ ys) k = optOr (mapLookup xs k) (mapLookup ys k) := by
  induction xs with
  | nil => simp [mapLookup, optOr]
  | cons hd tl ih =>
    obtain ⟨k', v⟩ := hd
    by_cases h : k' = k
    · simp [mapLookup, h, optOr]
    · simp [mapLookup, h, ih]

theorem applyDefaults_cons (k' : String) (v : GoVal)
    (tl args : List (String × GoVal)) :
    applyDefaults ((k', v) :: tl) args =
      applyDefaults tl
        (if (mapLookup args k').isSome then args else args ++ [(k', v)]) := by
  by_cases hk : (mapLookup args k').isSome <;>
    simp [applyDefaults, hk]

theorem applyDefaults_lookup (defaults args : List (String × GoVal)) (k : String) :
    mapLookup (applyDefaults defaults args) k =
      optOr (mapLookup args k) (mapLookup defaults k) := by
  induction defaults generalizing args with
  | nil =>
    show mapLookup args k = optOr (mapLookup args k) none
    cases mapLookup args k <;> rfl
  | cons hd tl ih =>
    obtain ⟨k', v⟩ := hd
    rw [applyDefaults_cons]
    by_cases hk : (mapLookup args k').isSome
    · rw [if_pos hk, ih]
      by_cases he : k' = k
      · subst he
        obtain ⟨w, hw⟩ := Option.isSome_iff_exists.mp hk
        simp [mapLookup, hw, optOr]
      · simp [mapLookup, he]
    · rw [if_neg hk, ih, mapLookup_append]
      by_cases he : k' = k
      · subst he
        have hnone : mapLookup args k' = none :=
          Option.not_isSome_iff_eq_none.mp hk
        simp [mapLookup, hnone, optOr]
      · simp only [mapLookup, he, if_neg he]
        cases mapLookup args k <;> simp [optOr, mapLookup]

/-- C6: in `handleGenerateXiaohongshuCover`, every key absent from the
caller's argument map is filled from the static default table, every key
present in the map — whatever its value or type — keeps the caller's
value, and no other key is added or removed: the merged map's lookup is
caller-first choice between the two maps at every key. -/
theorem c6_cover_default_merging (args : List (String × GoVal)) (k : String) :
    mapLookup (mergedCoverArgs args) k =
      optOr (mapLookup args k) (mapLookup coverArgDefaults k) :=
  applyDefaults_lookup coverArgDefaults args k

/-- C1 counterexample: a `tools/call` whose params object has neither
`name` nor `arguments` makes the unified server's dispatcher panic on an
unchecked type assertion — it crashes instead of returning a -32602
JSON-RPC error. -/
theorem c1_counterexample :
    outcomePanicked
        (unifiedHandleToolsCall trivialToolHandler (.vint 1) (.vobj [])) = true
    ∧ outcomeErrCode
        (unifiedHandleToolsCall trivialToolHandler (.vint 1) (.vobj [])) = none := by
  constructor <;> rfl

/-- C1 amended: on a params object lacking `name` or `arguments`, the
unified dispatcher panics (unchecked type assertions) rather than
replying -32602; the cover dispatcher replies -32602 only for a missing
or non-string `name`, and silently substitutes an empty arguments map
when `arguments` is missing; both reply -32602 when params is not an
object. -/
theorem c1_amended (runTool : String → List (String × GoVal) → MCPToolResult)
    (runCover : List (String × GoVal) → MCPToolResult)
    (id : GoVal) (fs : List (String × GoVal)) :
    (mapLookup fs "name" = none →
      unifiedHandleToolsCall runTool id (.vobj fs) = .panicked)
    ∧ (∀ s, mapLookup fs "name" = some (.vstr s) →
        mapLookup fs "arguments" = none →
        unifiedHandleToolsCall runTool id (.vobj fs) = .panicked)
    ∧ (mapLookup fs "name" = none →
        coverHandleToolsCall runCover id (.vobj fs) =
          .rpcError id (-32602) "Invalid params" "Missing tool name")
    ∧ (mapLookup fs "name" = some (.vstr "generate_xiaohongshu_cover") →
        mapLookup fs "arguments" = none →
        coverHandleToolsCall runCover id (.vobj fs) = .toolReply id (runCover []))
    ∧ unifiedHandleToolsCall runTool id (.vstr "x") =
        .rpcError id (-32602) "Invalid params" "Params must be an object" := by
  refine ⟨?_, ?_, ?_, ?_, rfl⟩
  · intro h; simp [unifiedHandleToolsCall, h]
  · intro s hs ha; simp [unifiedHandleToolsCall, hs, ha]
  · intro h; simp [coverHandleToolsCall, h]
  · intro hs ha; simp [coverHandleToolsCall, hs, ha]

/-- C1 witness: concrete dispatches exercising each amended branch. -/
theorem c1_amended_witness :
    unifiedHandleToolsCall trivialToolHandler (.vint 7)
        (.vobj [("arguments", .vobj [])]) = .panicked
    ∧ coverHandleToolsCall trivialCoverHandler (.vint 7)
        (.vobj [("arguments", .vobj [])]) =
      .rpcError (.vint 7) (-32602) "Invalid params" "Missing tool name"
    ∧ coverHandleToolsCall trivialCoverHandler (.vint 7)
        (.vobj [("name", .vstr "generate_xiaohongshu_cover")]) =
      .toolReply (.vint 7) (trivialCoverHandler []) := by
  refine ⟨?_, ?_, ?_⟩
  · exact (c1_amended trivialToolHandler trivialCoverHandler (.vint 7)
      [("arguments", .vobj [])]).1 (by simp [mapLookup])
  · exact (c1_amended trivialToolHandler trivialCoverHandler (.vint 7)
      [("arguments", .vobj [])]).2.2.1 (by simp [mapLookup])
  · exact (c1_amended trivialToolHandler trivialCoverHandler (.vint 7)
      [("name", .vstr "generate_xiaohongshu_cover")]).2.2.2.1
      (by simp [mapLookup]) (by simp [mapLookup])

/-- C2: when the JSON-RPC envelope succeeds, any ToolResult — in
particular a publish failure with `isError: true` — decodes in
`Client.PostContent` to the zero `PostResponse` with an empty `Error`
string (a ToolResult serializes only `content` and `isError`, and
`handlePublishContent` never produces an `error` field), so the client
reports the failed publish as a successful post. -/
theorem c2_publish_failure_reported_as_success (tr : MCPToolResult)
    (e : String) (h : tr.isError = true) :
    postContentDecode { result := encodeToolResult tr, error := none } =
      .ok zeroPostResponse
    ∧ (handlePublishContentResult (.error e)).isError = true
    ∧ postContentDecode
        { result := encodeToolResult (handlePublishContentResult (.error e))
        , error := none } = .ok zeroPostResponse := by
  refine ⟨?_, rfl, ?_⟩
  · simp only [postContentDecode, decodePostResponse, encodeToolResult, h,
      getStrField, mapLookup]
    rfl
  · simp only [postContentDecode, decodePostResponse, encodeToolResult,
      handlePublishContentResult, getStrField, mapLookup]
    rfl

/-- C2 witness: a concrete failing ToolResult decodes to a successful
post. -/
theorem c2_witness :
    postContentDecode
        { result := encodeToolResult { content := [], isError := true }
        , error := none } = .ok zeroPostResponse :=
  (c2_publish_failure_reported_as_success { content := [], isError := true }
    "boom" rfl).1

/-- C3 counterexample: on persistent failure the sleeps performed by
`PostWithRetry(req, 3)` between attempts are 10 and 20 seconds — not the
0 and 10 seconds the claim's `i*10` schedule (i = 0, 1) would give. -/
theorem c3_counterexample :
    (postWithRetry (fun _ => .error "boom") 3).2.2 = [10, 20]
    ∧ [10, 20] ≠ [0 * 10, 1 * 10] := by
  constructor
  · rfl
  · decide

/-- C3 amended: on persistent failure `PostWithRetry(req, 3)` calls
`PostContent` exactly 3 times, sleeps `(i+1)*10` seconds between attempt
`i` and attempt `i+1` for i = 0, 1 (i.e. 10s then 20s), and returns the
wrapped error naming the retry count 3; a first-attempt success returns
immediately after one call and no sleep. -/
theorem c3_retry_policy (attempt : Nat → Except String PostResponse) :
    (∀ e0 e1 e2, attempt 0 = .error e0 → attempt 1 = .error e1 →
      attempt 2 = .error e2 →
      postWithRetry attempt 3 =
        (.error ("failed to post content after 3 retries: " ++ e2), 3, [10, 20]))
    ∧ (∀ r, attempt 0 = .ok r → postWithRetry attempt 3 = (.ok r, 1, [])) := by
  constructor
  · intro e0 e1 e2 h0 h1 h2
    simp [postWithRetry, retryLoop, h0, h1, h2, retryFailMsg]
    rfl
  · intro r h0
    simp [postWithRetry, retryLoop, h0]

/-- C3 witness: the retry policy at concrete attempt oracles. -/
theorem c3_witness :
    postWithRetry (fun i => .error (toString i)) 3 =
      (.error "failed to post content after 3 retries: 2", 3, [10, 20])
    ∧ postWithRetry (fun _ => .ok zeroPostResponse) 3 =
      (.ok zeroPostResponse, 1, []) :=
  ⟨(c3_retry_policy (fun i => .error (toString i))).1 "0" "1" "2" rfl rfl rfl,
    (c3_retry_policy (fun _ => .ok zeroPostResponse)).2 zeroPostResponse rfl⟩

/-- C7 counterexample: a post whose title has 34 characters (well under
100) and is otherwise valid is rejected by `ValidatePostRequest`, because
Go `len` counts UTF-8 bytes (102 here), not characters. -/
theorem c7_counterexample :
    validatePostRequest
        { title := longCjkTitle, content := "ok", images := ["a.jpg"] } =
      some "title too long (max 100 characters)"
    ∧ longCjkTitle.length = 34
    ∧ longCjkTitle ≠ ""
    ∧ ("ok" : String) ≠ ""
    ∧ (["a.jpg"] : List String) ≠ []
    ∧ ("ok" : String).length ≤ 1000 := by
  refine ⟨by rfl, by decide, by decide, by decide, by decide, by decide⟩

/-- C7 amended: `ValidatePostRequest` rejects exactly the posts with an
empty title, an empty content, no image, a title longer than 100 UTF-8
bytes (Go `len`), or a content longer than 1000 UTF-8 bytes — each
through its own distinct error message, checked in that order — and
accepts every other post. -/
theorem c7_validate_post_request (req : PostRequest) :
    (validatePostRequest req = none ↔
      req.title ≠ "" ∧ req.content ≠ "" ∧ req.images ≠ [] ∧
        goLen req.title ≤ 100 ∧ goLen req.content ≤ 1000)
    ∧ (req.title = "" → validatePostRequest req = some "title is required")
    ∧ (req.title ≠ "" → req.content = "" →
        validatePostRequest req = some "content is required")
    ∧ (req.title ≠ "" → req.content ≠ "" → req.images = [] →
        validatePostRequest req = some "at least one image is required")
    ∧ (req.title ≠ "" → req.content ≠ "" → req.images ≠ [] →
        goLen req.title > 100 →
        validatePostRequest req = some "title too long (max 100 characters)")
    ∧ (req.title ≠ "" → req.content ≠ "" → req.images ≠ [] →
        goLen req.title ≤ 100 → goLen req.content > 1000 →
        validatePostRequest req = some "content too long (max 1000 characters)")
    ∧ ([ "title is required", "content is required"
       , "at least one image is required", "title too long (max 100 characters)"
       , "content too long (max 1000 characters)" ] : List String).Nodup := by
  refine ⟨?_, ?_, ?_, ?_, ?_, ?_, by decide⟩ <;>
    unfold validatePostRequest <;>
    split_ifs <;> simp_all

/-- C7 witness: a short ASCII post passes validation. -/
theorem c7_witness :
    validatePostRequest { title := "t", content := "c", images := ["i"] } = none :=
  ((c7_validate_post_request
      { title := "t", content := "c", images := ["i"] }).1).mpr
    (by refine ⟨by decide, by decide, by decide, by decide, by decide⟩)

/-- C4 counterexample: the orchestrator's connectivity step does not ping
`/health` on both servers — its second request is a `check_login_status`
`tools/call` POSTed to the xiaohongshu server's `/mcp` endpoint. -/
theorem c4_counterexample :
    (testConnectionsRequests "http://localhost:18062" "http://localhost:18060"
        false 0).map (fun r => (r.method, r.url)) =
      [("GET", "http://localhost:18062/health"),
        ("POST", "http://localhost:18060/mcp")]
    ∧ reqRpcMethod (xhsCheckLoginReq "http://localhost:18060" false 0) =
        some "tools/call"
    ∧ reqToolName (xhsCheckLoginReq "http://localhost:18060" false 0) =
        some "check_login_status"
    ∧ ("http://localhost:18060/mcp" : String) ≠ "http://localhost:18060/health" := by
  refine ⟨by rfl, by rfl, by rfl, by decide⟩

/-- C4 amended: the orchestrator's first step synchronously checks both
downstream servers — a GET of the cover server's `/health` and a
`check_login_status` `tools/call` POSTed to the xiaohongshu server's
`/mcp` — and if either check fails the run aborts with an error before
any fetcher, LLM, cover, or publish step executes. -/
theorem c4_connectivity_gate {W L T V : Type} (env : OrchEnv W L T V) :
    (∀ e, env.coverConn = .error e →
      (orchestratorRun env).trace = [Step.testCoverConnection] ∧
        (orchestratorRun env).outcome =
          .error ("Connection test failed: MCP server connection failed: " ++ e))
    ∧ (∀ e, env.coverConn = .ok () → env.xhsConn = .error e →
        (orchestratorRun env).trace =
            [Step.testCoverConnection, Step.testXhsConnection] ∧
          (orchestratorRun env).outcome =
            .error ("Connection test failed: Xiaohongshu MCP server connection failed: "
              ++ e))
    ∧ (∀ base, coverTestConnectionReq base =
        { method := "GET", url := base ++ "/health", body := none })
    ∧ (∀ base hl n, (xhsCheckLoginReq base hl n).method = "POST" ∧
        (xhsCheckLoginReq base hl n).url = base ++ "/mcp" ∧
        reqToolName (xhsCheckLoginReq base hl n) = some "check_login_status") := by
  refine ⟨?_, ?_, fun _ => rfl, fun _ _ _ => ⟨rfl, rfl, rfl⟩⟩
  · intro e h
    constructor <;> simp [orchestratorRun, h]
  · intro e hc hx
    constructor <;> simp [orchestratorRun, hc, hx]

/-- C4 witness: a failing cover health check aborts the run after the
first step. -/
theorem c4_witness :
    (orchestratorRun envCoverDown).trace = [Step.testCoverConnection]
    ∧ (orchestratorRun envCoverDown).outcome =
        .error "Connection test failed: MCP server connection failed: connection refused" := by
  have h := (c4_connectivity_gate envCoverDown).1 "connection refused" rfl
  exact ⟨h.1, h.2⟩

/-- C5: for every Beijing-local instant strictly before 20:00,
`getNext8PMBeijing` returns today's 20:00; for every instant after 20:00
it returns tomorrow's 20:00. -/
theorem c5_scheduler_next_run (now : Nat) :
    (now % nsPerDay < h8pmNs →
      getNext8PMBeijing now = now / nsPerDay * nsPerDay + h8pmNs)
    ∧ (h8pmNs < now % nsPerDay →
      getNext8PMBeijing now = now / nsPerDay * nsPerDay + h8pmNs + nsPerDay) := by
  unfold getNext8PMBeijing nsPerDay h8pmNs
  norm_num
  constructor <;> intro h <;> omega

/-- C5 witness: 10:00 maps to today's 20:00; 21:00 maps to tomorrow's
20:00. -/
theorem c5_witness :
    getNext8PMBeijing (36000 * 1000000000) = 72000 * 1000000000
    ∧ getNext8PMBeijing (75600 * 1000000000) = 158400 * 1000000000 := by
  constructor
  · have h := (c5_scheduler_next_run (36000 * 1000000000)).1
      (by norm_num [nsPerDay, h8pmNs])
    rw [h]; norm_num [nsPerDay, h8pmNs]
  · have h := (c5_scheduler_next_run (75600 * 1000000000)).2
      (by norm_num [nsPerDay, h8pmNs])
    rw [h]; norm_num [nsPerDay, h8pmNs]

/-- C8 counterexample: the cover server's `tools/list` catalog holds a
single descriptor, `generate_xiaohongshu_cover` — not the five stable
names. -/
theorem c8_counterexample :
    toolNamesOf (coverHandleToolsList (.vint 1) .vnull).result =
      ["generate_xiaohongshu_cover"]
    ∧ (["generate_xiaohongshu_cover"] : List String) ≠ unifiedToolNames := by
  refine ⟨by rfl, by decide⟩

/-- C8 amended: independent of the request's params, the unified server's
`tools/list` returns exactly the five descriptors named
generate_xiaohongshu_cover, check_login_status, publish_content,
list_feeds, search_feeds, while the cover server's returns exactly one
descriptor, generate_xiaohongshu_cover. -/
theorem c8_tools_list_catalog (id p q : GoVal) :
    unifiedHandleToolsList id p = unifiedHandleToolsList id q
    ∧ toolNamesOf (unifiedHandleToolsList id p).result = unifiedToolNames
    ∧ (toolNamesOf (unifiedHandleToolsList id p).result).length = 5
    ∧ coverHandleToolsList id p = coverHandleToolsList id q
    ∧ toolNamesOf (coverHandleToolsList id p).result =
        ["generate_xiaohongshu_cover"] := by
  exact ⟨rfl, by rfl, by rfl, rfl, by rfl⟩

/-- C9: once the connection tests pass, the gather step calls the
weather, lunar, traffic, visitor and weibo-summary fetchers in that
sequence; each failed fetcher leaves its `WorkflowResult` field empty
(`none`, or `""` for the weibo text) while a successful one fills it, and
no combination of fetcher failures aborts the run — the LLM step is
always reached. -/
theorem c9_gather_tolerates_failures {W L T V : Type} (env : OrchEnv W L T V)
    (hc : env.coverConn = .ok ()) (hx : env.xhsConn = .ok ()) :
    (∃ rest, (orchestratorRun env).trace =
      [Step.testCoverConnection, Step.testXhsConnection, Step.fetchWeather,
        Step.fetchLunar, Step.fetchTraffic, Step.fetchVisitor, Step.fetchWeibo,
        Step.generateLLM] ++ rest)
    ∧ (orchestratorRun env).result.weatherInfo = env.weather.toOption
    ∧ (orchestratorRun env).result.lunarInfo = env.lunar.toOption
    ∧ (orchestratorRun env).result.trafficInfo = env.traffic.toOption
    ∧ (orchestratorRun env).result.visitorInfo = env.visitor.toOption
    ∧ (orchestratorRun env).result.weiboContent =
        (match env.weibo with
          | .ok s => s
          | .error _ => "")
    ∧ Step.generateLLM ∈ (orchestratorRun env).trace := by
  obtain ⟨cc, xc, w, l, t, v, wb, llm, cover, post⟩ := env
  simp only at hc hx
  subst hc hx
  rcases llm with eL | gen
  · simp [orchestratorRun]
  · rcases cover with eC | img
    · simp [orchestratorRun]
    · simp only [orchestratorRun]
      rcases hval : validatePostRequest
          { title := gen.title, content := gen.formattedContent
          , images := [img.imageURL] } with _ | msg
      · rcases hpost : (postWithRetry post 3).1 with e | pr
        all_goals simp [hval, hpost]
      · simp [hval]

/-- C9 witness: an environment where every fetcher fails still reaches
the LLM step with all gathered fields empty. -/
theorem c9_witness :
    (orchestratorRun envAllFetchersFail).result.weatherInfo = none
    ∧ (orchestratorRun envAllFetchersFail).result.weiboContent = ""
    ∧ Step.generateLLM ∈ (orchestratorRun envAllFetchersFail).trace := by
  have h := c9_gather_tolerates_failures envAllFetchersFail rfl rfl
  exact ⟨h.2.1.trans rfl, h.2.2.2.2.2.1.trans rfl, h.2.2.2.2.2.2⟩

/-- C10: whatever `config.json` contained and whatever environment
variables are set, a successfully loaded configuration always has
`MCP.Headless = false` and `Xiaohongshu.Headless = false`:
`setDefaults` overwrites both fields unconditionally, silently discarding
a `true` from the file. -/
theorem c10_headless_forced_false (fileCfg : AppConfig)
    (env : String → String) (cfg : AppConfig)
    (h : loadConfig fileCfg env = .ok cfg) :
    cfg.mcp.headless = false ∧ cfg.xiaohongshu.headless = false := by
  have h' : (match validateConfig (setDefaults (loadFromEnv env fileCfg)) with
      | Except.error e =>
        (Except.error ("configuration validation failed: " ++ e) : Except String AppConfig)
      | Except.ok _ => Except.ok (setDefaults (loadFromEnv env fileCfg))) =
      Except.ok cfg := h
  split at h'
  · exact absurd h' (by simp)
  · rw [Except.ok.injEq] at h'
    subst h'
    exact ⟨rfl, rfl⟩

/-- C10 witness: a file configuration with both `headless: true` loads
successfully, and the loaded configuration has both flags `false`. -/
theorem c10_witness :
    loadConfig fileCfgHeadlessTrue emptyEnv = .ok loadedCfgEx
    ∧ loadedCfgEx.mcp.headless = false
    ∧ loadedCfgEx.xiaohongshu.headless = false := by
  have hload : loadConfig fileCfgHeadlessTrue emptyEnv = .ok loadedCfgEx := by rfl
  exact ⟨hload, (c10_headless_forced_false fileCfgHeadlessTrue emptyEnv
    loadedCfgEx hload).1, (c10_headless_forced_false fileCfgHeadlessTrue emptyEnv
    loadedCfgEx hload).2⟩
